import Mathlib

/-!
Verification of the DashBuilder OpenStack automation scripts
(`openstack_automation.py` and `batch_operations.py`).

The cloud SDK connection (`self.conn`) is modelled as a record of oracle
functions (`Conn`): each SDK call either returns a value or raises, which we
model with `Except String`.  Lookup helpers (`find_flavor`, `find_image`,
`find_network`, `find_security_group`, `find_volume`) are modelled as total
`Option`-returning functions; `find_server` may additionally raise, since the
health-check and batch error-handling claims quantify over worker calls that
throw.  Side effects on the backend are recorded as a trace of `Cmd` values
emitted by the orchestration functions at the moment the corresponding SDK
call is issued.  Python truthiness of optional strings (`None` and `""` are
falsy) is modelled by `pyFalsy`.
-/

deriving instance DecidableEq for Except

/-- Python `s.startswith(pre)`, expressed over the character data so that
it evaluates by kernel reduction. -/
def startswith (s pre : String) : Bool :=
  s.data.take pre.data.length == pre.data

/-- Truthiness of an optional Python string: `None` and `""` are falsy. -/
def pyFalsy : Option String → Bool
  | none => true
  | some s => s = ""

/-- A server record as observed through the SDK: `name`, `status`,
`addresses` (a dict network-name → address list; Python truthiness is
emptiness), `flavor['original_name']`, and `networks` (the attachment uuids
iterated by `rolling_update`). -/
structure Server where
  name : String
  status : String
  addresses : List (String × List String)
  flavorOriginalName : String
  networks : List String
deriving DecidableEq, Repr

/-- A flavor record (`find_flavor` result). -/
structure Flavor where
  id : String
  name : String
deriving DecidableEq, Repr

/-- An image record (`find_image` result). -/
structure Image where
  id : String
  name : String
deriving DecidableEq, Repr

/-- A network record (`find_network` / `conn.network.networks()` element). -/
structure Network where
  id : String
  name : String
  is_router_external : Bool
deriving DecidableEq, Repr

/-- A security-group record. -/
structure SecGroup where
  id : String
  name : String
deriving DecidableEq, Repr

/-- A volume record; `name` may be `None` in the backend listing. -/
structure Volume where
  id : String
  name : Option String
deriving DecidableEq, Repr

/-- A floating-IP record; `fixed_ip_address` is unset (`None`) or may be
empty, both falsy in Python. -/
structure FloatingIp where
  floating_ip_address : String
  fixed_ip_address : Option String
deriving DecidableEq, Repr

/-- A router record; `name` may be `None`. -/
structure Router where
  id : String
  name : Option String
deriving DecidableEq, Repr

/-- A port record as listed by `conn.network.ports(device_id=...)`. -/
structure Port where
  id : String
  device_owner : String
deriving DecidableEq, Repr

/-- The argument record of a `create_server` call (name, image id, flavor id,
network uuid list, security-group name list, key name, user data). -/
structure CreateReq where
  name : String
  image_id : String
  flavor_id : String
  networks : List String
  security_groups : List String
  key_name : Option String
  user_data : Option String
deriving DecidableEq, Repr

/-- A backend command issued by the orchestration code.  The trace of `Cmd`s
emitted by a call records every state-changing SDK request, in order. -/
inductive Cmd where
  | resize (server_name flavor_id : String)
  | waitVerifyResize (server_name : String)
  | confirmResize (server_name : String)
  | createImage (server_name snapshot_name : String)
  | deleteServer (server_name : String)
  | waitForDelete (server_name : String)
  | createServer (req : CreateReq)
  | waitForServer (server_name : String)
  | sleep (seconds : Nat)
  | createIp (network_id : String)
  | addFloatingIp (server_name ip : String)
  | attachVolume (server_name volume_id : String)
  | deleteVolume (volume_id : String)
  | deleteIp (address : String)
  | removeRouterInterface (router_id port_id : String)
  | deleteRouter (router_id : String)
  | deleteNetwork (network_id : String)
  | deleteSecurityGroup (sg_id : String)
deriving DecidableEq, Repr

/-- The SDK connection, modelled as a record of deterministic oracles.
Calls that the source wraps in `try`/`except` (or whose exceptions the
claims quantify over) return `Except String`; pure lookups return
`Option`.  The listing endpoints (`servers`, `volumes`, `ips`, `routers`,
`ports`, `networks`, `security_groups`) are the backend's current state.
`new_relic_key` models `os.getenv('NEW_RELIC_LICENSE_KEY', '')`. -/
structure Conn where
  find_server : String → Except String (Option Server)
  find_flavor : String → Option Flavor
  find_image : String → Option Image
  find_network : String → Option Network
  find_security_group : String → Option SecGroup
  find_volume : String → Option Volume
  create_server : CreateReq → Except String Server
  wait_for_server : Server → Except String Server
  wait_for_server_verify : Server → Except String Server
  resize_server : Server → Flavor → Except String Unit
  confirm_resize_server : Server → Except String Unit
  create_server_image : Server → String → Except String String
  delete_server : Server → Except String Unit
  wait_for_delete : Server → Except String Unit
  create_ip : String → Except String FloatingIp
  add_floating_ip_to_server : Server → String → Except String Unit
  create_volume_attachment : Server → String → Except String Unit
  servers : List Server
  volumes : List Volume
  ips : List FloatingIp
  routers : List Router
  ports : String → List Port
  networks : List Network
  security_groups : List SecGroup
  new_relic_key : String

/-- Outcome buckets returned by `health_check_instances`
(`\x7b'healthy': [], 'unhealthy': [], 'unknown': []\x7d`). -/
structure HealthStatus where
  healthy : List String
  unhealthy : List String
  unknown : List String
deriving DecidableEq, Repr

/-- Health of a single instance (`BatchOperations._check_instance_health`,
batch_operations.py lines 193-209): resolve by name (`find_server` may
raise, which propagates out of this helper to the collector's `except`);
an unresolved name is `'unknown'`; a resolved server whose status is not
`'ACTIVE'` or whose address dict is empty is `'unhealthy'`; otherwise
`'healthy'`. -/
def _check_instance_health (conn : Conn) (server_name : String) : Except String String :=
  match conn.find_server server_name with
  | .error e => .error e
  | .ok none => .ok "unknown"
  | .ok (some server) =>
    if server.status ≠ "ACTIVE" then .ok "unhealthy"
    else if server.addresses.isEmpty then .ok "unhealthy"
    else .ok "healthy"

/-- Batch health classification (`health_check_instances`, lines 170-191).
Each name is submitted to `_check_instance_health`; a result string selects
the bucket appended to (`health_status[status].append`), and a raised
exception from the worker puts the name in `'unknown'`.  The thread-pool
completion order only permutes elements inside each bucket, so the
embedding processes names in submission order. -/
def health_check_instances (conn : Conn) : List String → HealthStatus
  | [] => ⟨[], [], []⟩
  | n :: ns =>
    let r := health_check_instances conn ns
    match _check_instance_health conn n with
    | .error _ => { r with unknown := n :: r.unknown }
    | .ok status =>
      if status = "healthy" then { r with healthy := n :: r.healthy }
      else if status = "unhealthy" then { r with unhealthy := n :: r.unhealthy }
      else if status = "unknown" then { r with unknown := n :: r.unknown }
      else r

/-- The bucket a single name ends up in: the worker's result string, or
`'unknown'` when the worker raised. -/
def bucketOf (conn : Conn) (n : String) : String :=
  match _check_instance_health conn n with
  | .error _ => "unknown"
  | .ok status => status

/-- Keyword arguments of `OpenStackAutomation.launch_instance`
(openstack_automation.py lines 130-138) with the source's defaults. -/
structure LaunchArgs where
  name : String
  image_name : String := "cirros-0.5.2-x86_64-disk"
  flavor_name : String := "m1.small"
  network_name : Option String := none
  security_group_name : Option String := none
  key_name : Option String := none
  user_data : Option String := none
  enable_nrdot : Bool := true
deriving DecidableEq, Repr

/-- Cloud-init user data produced by `_generate_nrdot_userdata` (lines
253-304).  The source returns a long shell-script template interpolating
only `hostname` and `license_key`; no claim inspects its text, so the
template body is abbreviated while keeping the interpolated inputs. -/
def _generate_nrdot_userdata (hostname license_key : String) : String :=
  "#!/bin/bash nrdot-collector " ++ license_key ++ " " ++ hostname

/-- Launch of a single instance (`launch_instance`, lines 130-186):
`find_image` raises `ValueError` when unresolved, then `find_flavor`
likewise; a given but unresolved `network_name` or `security_group_name`
is skipped silently (empty attachment list); when `enable_nrdot` is set
and `user_data` is falsy and the license key is non-empty, user data is
generated; then `create_server` and `wait_for_server` are issued (either
may raise).  Returns the result together with the issued command trace. -/
def launch_instance (conn : Conn) (args : LaunchArgs) :
    Except String Server × List Cmd :=
  match conn.find_image args.image_name with
  | none => (.error ("Image " ++ args.image_name ++ " not found"), [])
  | some image =>
  match conn.find_flavor args.flavor_name with
  | none => (.error ("Flavor " ++ args.flavor_name ++ " not found"), [])
  | some flavor =>
    let networks : List String :=
      match args.network_name with
      | none => []
      | some nn =>
        match conn.find_network nn with
        | none => []
        | some net => [net.id]
    let security_groups : List String :=
      match args.security_group_name with
      | none => []
      | some sgn =>
        match conn.find_security_group sgn with
        | none => []
        | some sg => [sg.name]
    let user_data : Option String :=
      if args.enable_nrdot ∧ pyFalsy args.user_data ∧ conn.new_relic_key ≠ "" then
        some (_generate_nrdot_userdata args.name conn.new_relic_key)
      else args.user_data
    let req : CreateReq :=
      { name := args.name, image_id := image.id, flavor_id := flavor.id,
        networks := networks, security_groups := security_groups,
        key_name := args.key_name, user_data := user_data }
    match conn.create_server req with
    | .error e => (.error e, [Cmd.createServer req])
    | .ok server =>
      match conn.wait_for_server server with
      | .error e => (.error e, [Cmd.createServer req, Cmd.waitForServer server.name])
      | .ok server2 => (.ok server2, [Cmd.createServer req, Cmd.waitForServer server.name])

/-- Batch launch (`batch_launch_instances`, batch_operations.py lines
23-52): each config is launched, a raised exception is caught, logged and
the config excluded; successes are collected.  The serial branch runs in
input order; the parallel branch collects the same successes in thread
completion order, so the embedding fixes submission order (only the order
inside the result list differs in the source). -/
def batch_launch_instances (conn : Conn) : List LaunchArgs → List Server
  | [] => []
  | c :: cs =>
    match (launch_instance conn c).1 with
    | .ok server => server :: batch_launch_instances conn cs
    | .error _ => batch_launch_instances conn cs

/-- A snapshot record returned by `batch_snapshot_instances`
(`\x7b'name': snapshot_name, 'id': image_id\x7d`). -/
structure Snapshot where
  name : String
  id : String
deriving DecidableEq, Repr

/-- Submission phase of `batch_snapshot_instances` (lines 61-70): each
name is resolved on the calling thread (a raised lookup error propagates
out of the whole call); unresolved names are skipped without record;
resolved ones contribute a pending `create_server_image` future tagged
with `name ++ "-snapshot-" ++ t`. -/
def snapshotFutures (conn : Conn) (t : Nat) :
    List String → Except String (List (Server × String))
  | [] => .ok []
  | n :: ns =>
    match conn.find_server n with
    | .error e => .error e
    | .ok none => snapshotFutures conn t ns
    | .ok (some server) =>
      (snapshotFutures conn t ns).map
        (fun rest => (server, n ++ "-snapshot-" ++ toString t) :: rest)

/-- Collection phase of `batch_snapshot_instances` (lines 72-79): each
future's `create_server_image` result is appended on success; a raised
exception is caught and logged, leaving no record. -/
def collectSnapshots (conn : Conn) : List (Server × String) → List Snapshot
  | [] => []
  | (server, snapshot_name) :: fs =>
    match conn.create_server_image server snapshot_name with
    | .error _ => collectSnapshots conn fs
    | .ok image_id => { name := snapshot_name, id := image_id } :: collectSnapshots conn fs

/-- Batch snapshot (`batch_snapshot_instances`, lines 54-81), with `t`
standing for `int(time.time())`. -/
def batch_snapshot_instances (conn : Conn) (t : Nat) (server_names : List String) :
    Except String (List Snapshot) :=
  (snapshotFutures conn t server_names).map (collectSnapshots conn)

/-- Outcome buckets of `batch_resize_instances`
(`\x7b'success': [], 'failed': []\x7d`). -/
structure ResizeResult where
  success : List String
  failed : List String
deriving DecidableEq, Repr

/-- One iteration of the resize loop (lines 94-115): resolve the server
(an unresolved name goes to `'failed'` without raising); issue
`resize_server`, wait for `VERIFY_RESIZE`, then `confirm_resize_server`;
any raised exception is caught and the name classified `'failed'`.
Returns whether the name is a success together with the commands issued. -/
def resizeUnit (conn : Conn) (flavor : Flavor) (server_name : String) :
    Bool × List Cmd :=
  match conn.find_server server_name with
  | .error _ => (false, [])
  | .ok none => (false, [])
  | .ok (some server) =>
    match conn.resize_server server flavor with
    | .error _ => (false, [Cmd.resize server_name flavor.id])
    | .ok _ =>
      match conn.wait_for_server_verify server with
      | .error _ => (false, [Cmd.resize server_name flavor.id, Cmd.waitVerifyResize server_name])
      | .ok server2 =>
        match conn.confirm_resize_server server2 with
        | .error _ => (false, [Cmd.resize server_name flavor.id, Cmd.waitVerifyResize server_name,
                               Cmd.confirmResize server_name])
        | .ok _ => (true, [Cmd.resize server_name flavor.id, Cmd.waitVerifyResize server_name,
                           Cmd.confirmResize server_name])

/-- The serial loop of `batch_resize_instances`: classifies every name
into `success`/`failed` in input order and concatenates the traces. -/
def resizeLoop (conn : Conn) (flavor : Flavor) :
    List String → List String × List String × List Cmd
  | [] => ([], [], [])
  | n :: ns =>
    let u := resizeUnit conn flavor n
    let r := resizeLoop conn flavor ns
    (if u.1 then n :: r.1 else r.1,
     if u.1 then r.2.1 else n :: r.2.1,
     u.2 ++ r.2.2)

/-- Batch resize (`batch_resize_instances`, lines 83-117): the target
flavor is resolved first and a `ValueError` is raised before the loop
when it does not exist; otherwise every name is classified per
`resizeUnit`. -/
def batch_resize_instances (conn : Conn) (server_names : List String)
    (new_flavor : String) : Except String ResizeResult × List Cmd :=
  match conn.find_flavor new_flavor with
  | none => (.error ("Flavor " ++ new_flavor ++ " not found"), [])
  | some flavor =>
    let r := resizeLoop conn flavor server_names
    (.ok { success := r.1, failed := r.2.1 }, r.2.2)

/-- The keyword parameters accepted by `launch_instance` (its `def` line,
openstack_automation.py lines 130-138). -/
def launch_instance_params : List String :=
  ["name", "image_name", "flavor_name", "network_name",
   "security_group_name", "key_name", "user_data", "enable_nrdot"]

/-- The keyword arguments used at the `self.launch_instance(...)` call
site inside `rolling_update` (batch_operations.py lines 154-159). -/
def rolling_launch_call_kwargs : List String :=
  ["name", "image_name", "flavor_name", "networks"]

/-- Python keyword binding: a call whose keyword list contains a name that
is not among the callee's parameters raises `TypeError` before the callee
body runs. -/
def kwargsAccepted (params kwargs : List String) : Bool :=
  kwargs.all (fun k => params.contains k)

/-- The per-server body of `rolling_update`'s `try` block (lines 138-163):
take a pre-update snapshot named `name ++ "-pre-update-" ++ t`
(`create_server_image` may raise, aborting the rest of this server's
update), capture the network attachments, delete the old server and wait
for the deletion (either may raise), then call
`self.launch_instance(name=..., image_name=..., flavor_name=...,
networks=networks)`.  Because `networks` is not a parameter of
`launch_instance` (see `launch_instance_params`), that call raises
`TypeError` before the callee runs; the surrounding `except` catches it,
so the emitted trace of this server ends at `waitForDelete`. -/
def serverUpdateTrace (conn : Conn) (t : Nat) (new_image : String) (server : Server) :
    List Cmd :=
  let snapshot_name := server.name ++ "-pre-update-" ++ toString t
  Cmd.createImage server.name snapshot_name ::
  match conn.create_server_image server snapshot_name with
  | .error _ => []
  | .ok _ =>
    -- networks captured before the deletion (line 146); it cannot be
    -- handed to launch_instance, which has no parameter to receive it.
    let networks := server.networks
    Cmd.deleteServer server.name ::
    match conn.delete_server server with
    | .error _ => []
    | .ok _ =>
      Cmd.waitForDelete server.name ::
      match conn.wait_for_delete server with
      | .error _ => []
      | .ok _ =>
        if kwargsAccepted launch_instance_params rolling_launch_call_kwargs then
          -- counterfactual branch, never taken: were the keywords
          -- accepted, the bindable ones would reach launch_instance
          -- (networks would still have nowhere to bind).
          let _ := networks
          (launch_instance conn
            { name := server.name, image_name := new_image,
              flavor_name := server.flavorOriginalName }).2
        else []

/-- The window loop of `rolling_update` (lines 134-168): `for i in
range(0, len(servers), batch_size)` takes the slice
`servers[i:i+batch_size]`, processes each of its servers, and sleeps 30
seconds when `i + batch_size < len(servers)` — i.e. exactly when the
remainder `servers[i+batch_size:]` is non-empty.  A step of `0` would
raise `ValueError` in Python; the `0` case below is never reached from
`rolling_update`, whose default `batch_size` is `2`. -/
def rollingLoop (conn : Conn) (t : Nat) (new_image : String) :
    Nat → List Server → List Cmd
  | _, [] => []
  | 0, _ :: _ => []
  | b + 1, s :: ss =>
    let batch := s :: ss.take b
    let rest := ss.drop b
    (batch.map (serverUpdateTrace conn t new_image)).flatten
      ++ (if rest.isEmpty then [] else [Cmd.sleep 30])
      ++ rollingLoop conn t new_image (b + 1) rest
termination_by _ l => l.length
decreasing_by
  simp only [List.length_drop, List.length_cons]
  omega

/-- Rolling update (`rolling_update`, lines 119-168): the server list is
fetched once and filtered by name prefix; when no server matches, a
warning is logged and the call returns without issuing any backend
command; otherwise the windows are processed by `rollingLoop`.  `t`
stands for `int(time.time())`. -/
def rolling_update (conn : Conn) (t : Nat) ( server_prefix : String)
    (new_image : String) (batch_size : Nat := 2) : List Cmd :=
  let servers := conn.servers.filter (fun s => startswith s.name server_prefix)
  if servers.isEmpty then []
  else rollingLoop conn t new_image batch_size servers

/-- The window decomposition performed by `range(0, len(servers),
batch_size)` with slices `servers[i:i+batch_size]`: successive chunks of
size `batch_size` (the last possibly shorter). -/
def rollingWindows : Nat → List Server → List (List Server)
  | _, [] => []
  | 0, _ :: _ => []
  | b + 1, s :: ss => (s :: ss.take b) :: rollingWindows (b + 1) (ss.drop b)
termination_by _ l => l.length
decreasing_by
  simp only [List.length_drop, List.length_cons]
  omega

/-- Joins window traces with a separator inserted between consecutive
windows and never after the last. -/
def sepJoin (sep : List Cmd) : List (List Cmd) → List Cmd
  | [] => []
  | [w] => w
  | w :: w2 :: ws => w ++ sep ++ sepJoin sep (w2 :: ws)

/-- Floating-IP assignment (`assign_floating_ip`, openstack_automation.py
lines 188-217): resolve the server (`ValueError` when unresolved), find
the first external network (`ValueError` when none), create a floating IP
on it and add it to the server (either call may raise and propagates). -/
def assign_floating_ip (conn : Conn) (server_name : String) :
    Except String String × List Cmd :=
  match conn.find_server server_name with
  | .error e => (.error e, [])
  | .ok none => (.error ("Server " ++ server_name ++ " not found"), [])
  | .ok (some server) =>
    match conn.networks.find? (fun net => net.is_router_external) with
    | none => (.error "No external network found", [])
    | some external_net =>
      match conn.create_ip external_net.id with
      | .error e => (.error e, [Cmd.createIp external_net.id])
      | .ok floating_ip =>
        match conn.add_floating_ip_to_server server floating_ip.floating_ip_address with
        | .error e =>
          (.error e, [Cmd.createIp external_net.id,
                      Cmd.addFloatingIp server.name floating_ip.floating_ip_address])
        | .ok _ =>
          (.ok floating_ip.floating_ip_address,
           [Cmd.createIp external_net.id,
            Cmd.addFloatingIp server.name floating_ip.floating_ip_address])

/-- Volume attachment (`attach_volume`, lines 238-251): both lookups run
first (`find_server` may raise, which propagates); if either misses, a
single `ValueError "Server or volume not found"` is raised; otherwise the
attachment request is issued (and may raise). -/
def attach_volume (conn : Conn) (server_name volume_name : String) :
    Except String Unit × List Cmd :=
  match conn.find_server server_name with
  | .error e => (.error e, [])
  | .ok server? =>
    let volume? := conn.find_volume volume_name
    match server?, volume? with
    | some server, some volume =>
      match conn.create_volume_attachment server volume.id with
      | .error e => (.error e, [Cmd.attachVolume server.name volume.id])
      | .ok _ => (.ok (), [Cmd.attachVolume server.name volume.id])
    | _, _ => (.error "Server or volume not found", [])

/-- Resource cleanup (`cleanup_resources`, lines 306-350): servers whose
name starts with the prefix are deleted; volumes, routers, networks and
security groups are deleted when their (possibly `None`) name is truthy
and starts with the prefix; floating IPs are deleted whenever their
`fixed_ip_address` is falsy, with no prefix test; router deletion first
removes every port whose `device_owner` is `'network:router_interface'`. -/
def cleanup_resources (conn : Conn) ( pfx : String := "auto-") : List Cmd :=
  ((conn.servers.filter (fun s => startswith s.name pfx)).map
      (fun s => Cmd.deleteServer s.name))
  ++ ((conn.volumes.filter (fun v => !pyFalsy v.name ∧ startswith (v.name.getD "") pfx)).map
      (fun v => Cmd.deleteVolume v.id))
  ++ ((conn.ips.filter (fun fip => pyFalsy fip.fixed_ip_address)).map
      (fun fip => Cmd.deleteIp fip.floating_ip_address))
  ++ ((conn.routers.filter (fun r => !pyFalsy r.name ∧ startswith (r.name.getD "") pfx)).map
      (fun r =>
        ((conn.ports r.id).filter
            (fun p => p.device_owner = "network:router_interface")).map
          (fun p => Cmd.removeRouterInterface r.id p.id)
        ++ [Cmd.deleteRouter r.id])).flatten
  ++ ((conn.networks.filter (fun n => n.name ≠ "" ∧ startswith n.name pfx)).map
      (fun n => Cmd.deleteNetwork n.id))
  ++ ((conn.security_groups.filter (fun sg => sg.name ≠ "" ∧ startswith sg.name pfx)).map
      (fun sg => Cmd.deleteSecurityGroup sg.id))

/-- Tester for `createServer` commands in a trace. -/
def Cmd.isCreateServer : Cmd → Bool
  | .createServer _ => true
  | _ => false

/-- Tester for `deleteIp` commands in a trace. -/
def Cmd.isDeleteIp : Cmd → Bool
  | .deleteIp _ => true
  | _ => false

/-- A server produced by the backend for a `create_server` request in the
example connections below. -/
def serverOfReq (req : CreateReq) : Server :=
  { name := req.name, status := "ACTIVE", addresses := [("net0", ["10.0.0.9"])],
    flavorOriginalName := "m1.small", networks := req.networks }

/-- A baseline example connection: every lookup misses, every
state-changing call succeeds, and the backend listings are empty.
Witness connections below override individual fields. -/
def connBase : Conn where
  find_server := fun _ => .ok none
  find_flavor := fun _ => none
  find_image := fun _ => none
  find_network := fun _ => none
  find_security_group := fun _ => none
  find_volume := fun _ => none
  create_server := fun req => .ok (serverOfReq req)
  wait_for_server := fun s => .ok s
  wait_for_server_verify := fun s => .ok s
  resize_server := fun _ _ => .ok ()
  confirm_resize_server := fun _ => .ok ()
  create_server_image := fun _ _ => .ok "image-id-1"
  delete_server := fun _ => .ok ()
  wait_for_delete := fun _ => .ok ()
  create_ip := fun _ => .ok { floating_ip_address := "1.2.3.4", fixed_ip_address := none }
  add_floating_ip_to_server := fun _ _ => .ok ()
  create_volume_attachment := fun _ _ => .ok ()
  servers := []
  volumes := []
  ips := []
  routers := []
  ports := fun _ => []
  networks := []
  security_groups := []
  new_relic_key := ""

/-- An active server with an address, used in the health-check witnesses. -/
def srvActive : Server :=
  { name := "s-ok", status := "ACTIVE", addresses := [("net0", ["10.0.0.5"])],
    flavorOriginalName := "m1.small", networks := ["nu-1"] }

/-- A resolved server that is not `ACTIVE`. -/
def srvShut : Server :=
  { name := "s-bad", status := "SHUTOFF", addresses := [("net0", ["10.0.0.6"])],
    flavorOriginalName := "m1.small", networks := ["nu-1"] }

/-- A resolved `ACTIVE` server with an empty address dict. -/
def srvNoAddr : Server :=
  { name := "s-noaddr", status := "ACTIVE", addresses := [],
    flavorOriginalName := "m1.small", networks := ["nu-1"] }

/-- The fleet member `web-i` used in the rolling-update witnesses. -/
def webServer (i : Nat) : Server :=
  { name := "web-" ++ toString i, status := "ACTIVE",
    addresses := [("net0", ["10.0.0.1"])],
    flavorOriginalName := "m1.small", networks := ["nu-1"] }

/-- Five servers matching the prefix `web`. -/
def fleet5 : List Server :=
  [webServer 1, webServer 2, webServer 3, webServer 4, webServer 5]

/-- Connection whose `find_server` raises for `s-throw`, resolves the
three example servers, and misses every other name. -/
def connHealth : Conn :=
  { connBase with
    find_server := fun n =>
      if n = "s-throw" then .error "boom"
      else if n = "s-ok" then .ok (some srvActive)
      else if n = "s-bad" then .ok (some srvShut)
      else if n = "s-noaddr" then .ok (some srvNoAddr)
      else .ok none }

/-- The example flavor `m1.large`. -/
def flavorLarge : Flavor := { id := "fl-2", name := "m1.large" }

/-- The example flavor `m1.small`. -/
def flavorSmall : Flavor := { id := "fl-1", name := "m1.small" }

/-- The example image. -/
def imageCirros : Image := { id := "im-1", name := "cirros-0.5.2-x86_64-disk" }

/-- Connection for the batch-isolation witness: `m1.large` resolves, no
image resolves (so every launch raises), and `find_server` behaves as in
`connHealth`. -/
def connC4w : Conn :=
  { connHealth with
    find_flavor := fun fn => if fn = "m1.large" then some flavorLarge else none }

/-- Connection for the snapshot witness: `gone` does not resolve, every
other name resolves to the active example server. -/
def connSnap : Conn :=
  { connBase with
    find_server := fun n => if n = "gone" then .ok none else .ok (some srvActive) }

/-- Backend holding exactly one server matching `web`. -/
def connRU1 : Conn := { connBase with servers := [webServer 1] }

/-- Backend holding exactly five servers matching `web`. -/
def connRU5 : Conn := { connBase with servers := fleet5 }

/-- Connection for the not-found witnesses: default image and flavor and
the volume `vol-1` resolve, `s-ok` resolves, no security group, network
or external network exists. -/
def connC8 : Conn :=
  { connBase with
    find_image := fun n => if n = "cirros-0.5.2-x86_64-disk" then some imageCirros else none,
    find_flavor := fun n => if n = "m1.small" then some flavorSmall else none,
    find_server := fun n => if n = "s-ok" then .ok (some srvActive) else .ok none,
    find_volume := fun n => if n = "vol-1" then some { id := "v-1", name := some "vol-1" } else none }

/-- Launch arguments naming a security group that does not resolve. -/
def argsC8 : LaunchArgs := { name := "n1", security_group_name := some "sg-missing" }

/-- Connection where every image name resolves but no flavor does. -/
def connImgOnly : Conn :=
  { connBase with find_image := fun _ => some imageCirros }

/-- Backend state for the cleanup witness: one matching and one
non-matching resource of each kind, one floating IP with a fixed address
and one without. -/
def connClean : Conn :=
  { connBase with
    servers := [webServer 1,
                { name := "auto-s1", status := "ACTIVE", addresses := [],
                  flavorOriginalName := "m1.small", networks := [] }],
    volumes := [{ id := "v-1", name := some "auto-v1" }, { id := "v-2", name := none }],
    ips := [{ floating_ip_address := "1.2.3.4", fixed_ip_address := none },
            { floating_ip_address := "5.6.7.8", fixed_ip_address := some "10.0.0.3" }],
    routers := [{ id := "r-1", name := some "auto-r1" }, { id := "r-2", name := some "other" }],
    ports := fun d =>
      if d = "r-1" then [{ id := "p-1", device_owner := "network:router_interface" },
                         { id := "p-2", device_owner := "compute:nova" }]
      else [],
    networks := [{ id := "n-1", name := "auto-n1", is_router_external := false },
                 { id := "n-2", name := "ext-net", is_router_external := true }],
    security_groups := [{ id := "sg-1", name := "auto-sg1" }, { id := "sg-2", name := "default" }] }

theorem check_instance_health_cases (conn : Conn) (n : String) :
    (∃ e, _check_instance_health conn n = .error e) ∨
    _check_instance_health conn n = .ok "unknown" ∨
    _check_instance_health conn n = .ok "unhealthy" ∨
    _check_instance_health conn n = .ok "healthy" := by
  unfold _check_instance_health
  cases h : conn.find_server n with
  | error e => exact .inl ⟨e, rfl⟩
  | ok s? =>
    cases s? with
    | none => simp
    | some s =>
      by_cases h1 : s.status ≠ "ACTIVE"
      · simp [h1]
      · by_cases h2 : s.addresses.isEmpty <;> simp [h1, h2]

theorem bucketOf_cases (conn : Conn) (n : String) :
    bucketOf conn n = "unknown" ∨ bucketOf conn n = "unhealthy" ∨
    bucketOf conn n = "healthy" := by
  unfold bucketOf
  rcases check_instance_health_cases conn n with ⟨e, h⟩ | h | h | h <;> simp [h]

theorem healthy_eq_filter (conn : Conn) (ns : List String) :
    (health_check_instances conn ns).healthy
      = ns.filter (fun n => bucketOf conn n == "healthy") := by
  induction ns with
  | nil => rfl
  | cons n ns ih =>
    simp only [health_check_instances, List.filter_cons]
    cases hc : _check_instance_health conn n with
    | error e => simp [bucketOf, hc, ih]
    | ok status =>
      by_cases h1 : status = "healthy"
      · simp [bucketOf, hc, h1, ih]
      · by_cases h2 : status = "unhealthy"
        · simp [bucketOf, hc, h1, h2, ih]
        · by_cases h3 : status = "unknown" <;> simp [bucketOf, hc, h1, h2, h3, ih]

theorem unhealthy_eq_filter (conn : Conn) (ns : List String) :
    (health_check_instances conn ns).unhealthy
      = ns.filter (fun n => bucketOf conn n == "unhealthy") := by
  induction ns with
  | nil => rfl
  | cons n ns ih =>
    simp only [health_check_instances, List.filter_cons]
    cases hc : _check_instance_health conn n with
    | error e => simp [bucketOf, hc, ih]
    | ok status =>
      by_cases h1 : status = "healthy"
      · simp [bucketOf, hc, h1, ih]
      · by_cases h2 : status = "unhealthy"
        · simp [bucketOf, hc, h1, h2, ih]
        · by_cases h3 : status = "unknown" <;> simp [bucketOf, hc, h1, h2, h3, ih]

theorem unknown_eq_filter (conn : Conn) (ns : List String) :
    (health_check_instances conn ns).unknown
      = ns.filter (fun n => bucketOf conn n == "unknown") := by
  induction ns with
  | nil => rfl
  | cons n ns ih =>
    simp only [health_check_instances, List.filter_cons]
    cases hc : _check_instance_health conn n with
    | error e => simp [bucketOf, hc, ih]
    | ok status =>
      by_cases h1 : status = "healthy"
      · simp [bucketOf, hc, h1, ih]
      · by_cases h2 : status = "unhealthy"
        · simp [bucketOf, hc, h1, h2, ih]
        · by_cases h3 : status = "unknown" <;> simp [bucketOf, hc, h1, h2, h3, ih]

theorem mem_healthy_iff (conn : Conn) (ns : List String) (n : String) :
    n ∈ (health_check_instances conn ns).healthy ↔
      n ∈ ns ∧ bucketOf conn n = "healthy" := by
  rw [healthy_eq_filter]
  simp

theorem mem_unhealthy_iff (conn : Conn) (ns : List String) (n : String) :
    n ∈ (health_check_instances conn ns).unhealthy ↔
      n ∈ ns ∧ bucketOf conn n = "unhealthy" := by
  rw [unhealthy_eq_filter]
  simp

theorem mem_unknown_iff (conn : Conn) (ns : List String) (n : String) :
    n ∈ (health_check_instances conn ns).unknown ↔
      n ∈ ns ∧ bucketOf conn n = "unknown" := by
  rw [unknown_eq_filter]
  simp

theorem health_buckets_perm (conn : Conn) (ns : List String) :
    ((health_check_instances conn ns).healthy
      ++ (health_check_instances conn ns).unhealthy
      ++ (health_check_instances conn ns).unknown).Perm ns := by
  induction ns with
  | nil => rfl
  | cons n ns ih =>
    cases hc : _check_instance_health conn n with
    | error e =>
      simp only [health_check_instances, hc]
      exact List.perm_middle.trans (ih.cons n)
    | ok status =>
      by_cases h1 : status = "healthy"
      · simp only [health_check_instances, hc, h1, if_true, List.cons_append]
        exact ih.cons n
      · by_cases h2 : status = "unhealthy"
        · simp only [health_check_instances, hc, h1, h2, if_false, if_true]
          exact (List.perm_middle.append_right _).trans (ih.cons n)
        · by_cases h3 : status = "unknown"
          · simp only [health_check_instances, hc, h1, h2, h3, if_false, if_true]
            exact List.perm_middle.trans (ih.cons n)
          · rcases check_instance_health_cases conn n with ⟨e, h⟩ | h | h | h <;>
              rw [hc] at h <;> simp_all

theorem bucketOf_eq_unknown_iff (conn : Conn) (n : String) :
    bucketOf conn n = "unknown" ↔
      (∃ e, conn.find_server n = .error e) ∨ conn.find_server n = .ok none := by
  unfold bucketOf _check_instance_health
  cases h : conn.find_server n with
  | error e => simp
  | ok s? =>
    cases s? with
    | none => simp
    | some s =>
      by_cases h1 : s.status ≠ "ACTIVE"
      · simp [h1]
      · by_cases h2 : s.addresses.isEmpty <;> simp [h1, h2]

theorem bucketOf_eq_unhealthy_iff (conn : Conn) (n : String) :
    bucketOf conn n = "unhealthy" ↔
      ∃ s, conn.find_server n = .ok (some s) ∧
        (s.status ≠ "ACTIVE" ∨ s.addresses = []) := by
  unfold bucketOf _check_instance_health
  cases h : conn.find_server n with
  | error e => simp
  | ok s? =>
    cases s? with
    | none => simp
    | some s =>
      by_cases h1 : s.status ≠ "ACTIVE"
      · simp [h1]
      · simp only [ne_eq, not_not] at h1
        by_cases h2 : s.addresses = [] <;> simp [h1, h2]

theorem bucketOf_eq_healthy_iff (conn : Conn) (n : String) :
    bucketOf conn n = "healthy" ↔
      ∃ s, conn.find_server n = .ok (some s) ∧
        s.status = "ACTIVE" ∧ s.addresses ≠ [] := by
  unfold bucketOf _check_instance_health
  cases h : conn.find_server n with
  | error e => simp
  | ok s? =>
    cases s? with
    | none => simp
    | some s =>
      by_cases h1 : s.status ≠ "ACTIVE"
      · simp [h1]
      · simp only [ne_eq, not_not] at h1
        by_cases h2 : s.addresses = [] <;> simp [h1, h2]

/-- C1: every name in a health-check input list appears in exactly one of
the three output buckets `healthy`, `unhealthy`, `unknown`, and the
concatenation of the three buckets is a permutation of the input list
(no duplicates introduced, no omissions). -/
theorem health_check_buckets_partition (conn : Conn) (names : List String) :
    ((health_check_instances conn names).healthy
      ++ (health_check_instances conn names).unhealthy
      ++ (health_check_instances conn names).unknown).Perm names
    ∧ ∀ n ∈ names,
        (n ∈ (health_check_instances conn names).healthy
          ∧ n ∉ (health_check_instances conn names).unhealthy
          ∧ n ∉ (health_check_instances conn names).unknown)
        ∨ (n ∉ (health_check_instances conn names).healthy
          ∧ n ∈ (health_check_instances conn names).unhealthy
          ∧ n ∉ (health_check_instances conn names).unknown)
        ∨ (n ∉ (health_check_instances conn names).healthy
          ∧ n ∉ (health_check_instances conn names).unhealthy
          ∧ n ∈ (health_check_instances conn names).unknown) := by
  refine ⟨health_buckets_perm conn names, fun n hn => ?_⟩
  rcases bucketOf_cases conn n with h | h | h
  · exact .inr (.inr ⟨by simp [mem_healthy_iff, h], by simp [mem_unhealthy_iff, h],
      by simp [mem_unknown_iff, hn, h]⟩)
  · exact .inr (.inl ⟨by simp [mem_healthy_iff, h], by simp [mem_unhealthy_iff, hn, h],
      by simp [mem_unknown_iff, h]⟩)
  · exact .inl ⟨by simp [mem_healthy_iff, hn, h], by simp [mem_unhealthy_iff, h],
      by simp [mem_unknown_iff, h]⟩

theorem health_check_buckets_partition_witness :
    "s-ok" ∈ (["s-ok", "s-bad", "s-noaddr", "s-missing", "s-throw"] : List String)
    ∧ ((health_check_instances connHealth ["s-ok", "s-bad", "s-noaddr", "s-missing", "s-throw"]).healthy
        ++ (health_check_instances connHealth ["s-ok", "s-bad", "s-noaddr", "s-missing", "s-throw"]).unhealthy
        ++ (health_check_instances connHealth ["s-ok", "s-bad", "s-noaddr", "s-missing", "s-throw"]).unknown).Perm
        ["s-ok", "s-bad", "s-noaddr", "s-missing", "s-throw"]
    ∧ (("s-ok" ∈ (health_check_instances connHealth ["s-ok", "s-bad", "s-noaddr", "s-missing", "s-throw"]).healthy
          ∧ "s-ok" ∉ (health_check_instances connHealth ["s-ok", "s-bad", "s-noaddr", "s-missing", "s-throw"]).unhealthy
          ∧ "s-ok" ∉ (health_check_instances connHealth ["s-ok", "s-bad", "s-noaddr", "s-missing", "s-throw"]).unknown)
        ∨ ("s-ok" ∉ (health_check_instances connHealth ["s-ok", "s-bad", "s-noaddr", "s-missing", "s-throw"]).healthy
          ∧ "s-ok" ∈ (health_check_instances connHealth ["s-ok", "s-bad", "s-noaddr", "s-missing", "s-throw"]).unhealthy
          ∧ "s-ok" ∉ (health_check_instances connHealth ["s-ok", "s-bad", "s-noaddr", "s-missing", "s-throw"]).unknown)
        ∨ ("s-ok" ∉ (health_check_instances connHealth ["s-ok", "s-bad", "s-noaddr", "s-missing", "s-throw"]).healthy
          ∧ "s-ok" ∉ (health_check_instances connHealth ["s-ok", "s-bad", "s-noaddr", "s-missing", "s-throw"]).unhealthy
          ∧ "s-ok" ∈ (health_check_instances connHealth ["s-ok", "s-bad", "s-noaddr", "s-missing", "s-throw"]).unknown)) :=
  ⟨by decide,
   (health_check_buckets_partition connHealth _).1,
   (health_check_buckets_partition connHealth _).2 "s-ok" (by decide)⟩

/-- C2: a submitted name lands in `unknown` iff it does not resolve or the
classification call raised; in `unhealthy` iff it resolves to a server that
is not `ACTIVE` or has an empty address dict; in `healthy` otherwise
(resolved, `ACTIVE`, non-empty addresses). -/
theorem health_classification_conditions (conn : Conn) (names : List String)
    (n : String) (hn : n ∈ names) :
    (n ∈ (health_check_instances conn names).unknown ↔
      (∃ e, conn.find_server n = .error e) ∨ conn.find_server n = .ok none)
    ∧ (n ∈ (health_check_instances conn names).unhealthy ↔
      ∃ s, conn.find_server n = .ok (some s) ∧
        (s.status ≠ "ACTIVE" ∨ s.addresses = []))
    ∧ (n ∈ (health_check_instances conn names).healthy ↔
      ∃ s, conn.find_server n = .ok (some s) ∧
        s.status = "ACTIVE" ∧ s.addresses ≠ []) := by
  refine ⟨?_, ?_, ?_⟩
  · rw [mem_unknown_iff, ← bucketOf_eq_unknown_iff]
    simp [hn]
  · rw [mem_unhealthy_iff, ← bucketOf_eq_unhealthy_iff]
    simp [hn]
  · rw [mem_healthy_iff, ← bucketOf_eq_healthy_iff]
    simp [hn]

theorem health_classification_conditions_witness :
    "s-throw" ∈ (["s-ok", "s-throw"] : List String)
    ∧ (("s-throw" ∈ (health_check_instances connHealth ["s-ok", "s-throw"]).unknown ↔
        (∃ e, connHealth.find_server "s-throw" = .error e)
          ∨ connHealth.find_server "s-throw" = .ok none)
      ∧ ("s-throw" ∈ (health_check_instances connHealth ["s-ok", "s-throw"]).unhealthy ↔
        ∃ s, connHealth.find_server "s-throw" = .ok (some s) ∧
          (s.status ≠ "ACTIVE" ∨ s.addresses = []))
      ∧ ("s-throw" ∈ (health_check_instances connHealth ["s-ok", "s-throw"]).healthy ↔
        ∃ s, connHealth.find_server "s-throw" = .ok (some s) ∧
          s.status = "ACTIVE" ∧ s.addresses ≠ [])) :=
  ⟨by decide, health_classification_conditions connHealth ["s-ok", "s-throw"] "s-throw" (by decide)⟩

/-- C3: when the target flavor does not resolve, `batch_resize_instances`
raises `ValueError` before iterating: the result is the error and the
issued command trace is empty, so no resize, wait or confirm command
reaches any server. -/
theorem batch_resize_flavor_missing_fail_fast (conn : Conn)
    (server_names : List String) (new_flavor : String)
    (h : conn.find_flavor new_flavor = none) :
    batch_resize_instances conn server_names new_flavor
      = (.error ("Flavor " ++ new_flavor ++ " not found"), []) := by
  unfold batch_resize_instances
  rw [h]

theorem batch_resize_flavor_missing_fail_fast_witness :
    connBase.find_flavor "m1.xlarge" = none
    ∧ batch_resize_instances connBase ["s-ok", "s-bad"] "m1.xlarge"
        = (.error ("Flavor " ++ "m1.xlarge" ++ " not found"), []) :=
  ⟨rfl, batch_resize_flavor_missing_fail_fast connBase ["s-ok", "s-bad"] "m1.xlarge" rfl⟩

theorem resizeLoop_eq (conn : Conn) (flavor : Flavor) (ns : List String) :
    resizeLoop conn flavor ns
      = (ns.filter (fun m => (resizeUnit conn flavor m).1),
         ns.filter (fun m => !(resizeUnit conn flavor m).1),
         (ns.map (fun m => (resizeUnit conn flavor m).2)).flatten) := by
  induction ns with
  | nil => rfl
  | cons n ns ih =>
    simp only [resizeLoop, ih, List.filter_cons, List.map_cons, List.flatten_cons]
    by_cases h : (resizeUnit conn flavor n).1 <;> simp [h]

theorem batch_launch_skips_failed (conn : Conn) (pre post : List LaunchArgs)
    (c : LaunchArgs) (e : String) (hc : (launch_instance conn c).1 = .error e) :
    batch_launch_instances conn (pre ++ c :: post)
      = batch_launch_instances conn pre ++ batch_launch_instances conn post := by
  induction pre with
  | nil => simp [batch_launch_instances, hc]
  | cons a pre ih =>
    simp only [List.cons_append, batch_launch_instances]
    cases (launch_instance conn a).1 <;> simp [ih]

/-- C4: a failure in one unit of a batch is recorded against that unit
only and the batch call itself does not raise: a config whose launch
raises is excluded while all the others are still processed; with a
resolvable flavor, `batch_resize_instances` returns the `success`/`failed`
partition of all input names, classifying each name by its own unit's
outcome; a name whose health check raises is put in the `unknown` bucket. -/
theorem batch_unit_failures_isolated (conn : Conn) (pre post : List LaunchArgs)
    (c : LaunchArgs) (e : String) (names : List String) (fl : String)
    (flavor : Flavor) (n : String) (e2 : String)
    (hc : (launch_instance conn c).1 = .error e)
    (hf : conn.find_flavor fl = some flavor)
    (hn : _check_instance_health conn n = .error e2)
    (hmem : n ∈ names) :
    batch_launch_instances conn (pre ++ c :: post)
      = batch_launch_instances conn pre ++ batch_launch_instances conn post
    ∧ (batch_resize_instances conn names fl).1
      = .ok { success := names.filter (fun m => (resizeUnit conn flavor m).1),
              failed := names.filter (fun m => !(resizeUnit conn flavor m).1) }
    ∧ n ∈ (health_check_instances conn names).unknown := by
  refine ⟨batch_launch_skips_failed conn pre post c e hc, ?_, ?_⟩
  · unfold batch_resize_instances
    rw [hf]
    simp [resizeLoop_eq]
  · rw [mem_unknown_iff]
    exact ⟨hmem, by unfold bucketOf; rw [hn]⟩

theorem batch_unit_failures_isolated_witness :
    (launch_instance connC4w { name := "n1" }).1
        = .error "Image cirros-0.5.2-x86_64-disk not found"
    ∧ connC4w.find_flavor "m1.large" = some flavorLarge
    ∧ _check_instance_health connC4w "s-throw" = .error "boom"
    ∧ "s-throw" ∈ (["s-ok", "s-throw", "s-missing"] : List String)
    ∧ (batch_launch_instances connC4w ([] ++ { name := "n1" } :: [])
        = batch_launch_instances connC4w [] ++ batch_launch_instances connC4w []
      ∧ (batch_resize_instances connC4w ["s-ok", "s-throw", "s-missing"] "m1.large").1
        = .ok { success := ["s-ok", "s-throw", "s-missing"].filter
                  (fun m => (resizeUnit connC4w flavorLarge m).1),
                failed := ["s-ok", "s-throw", "s-missing"].filter
                  (fun m => !(resizeUnit connC4w flavorLarge m).1) }
      ∧ "s-throw" ∈ (health_check_instances connC4w ["s-ok", "s-throw", "s-missing"]).unknown) :=
  ⟨by decide, by decide, by decide, by decide,
   batch_unit_failures_isolated connC4w [] [] { name := "n1" }
     "Image cirros-0.5.2-x86_64-disk not found" ["s-ok", "s-throw", "s-missing"]
     "m1.large" flavorLarge "s-throw" "boom"
     (by decide) (by decide) (by decide) (by decide)⟩

theorem rollingLoop_eq_sepJoin (conn : Conn) (t : Nat) (img : String) (b : Nat)
    (l : List Server) :
    rollingLoop conn t img b l
      = sepJoin [Cmd.sleep 30]
          ((rollingWindows b l).map
            (fun w => (w.map (serverUpdateTrace conn t img)).flatten)) := by
  have H : ∀ (n : Nat) (l : List Server), l.length ≤ n →
      rollingLoop conn t img b l
        = sepJoin [Cmd.sleep 30]
            ((rollingWindows b l).map
              (fun w => (w.map (serverUpdateTrace conn t img)).flatten)) := by
    intro n
    induction n with
    | zero =>
      intro l hl
      have : l = [] := List.length_eq_zero.mp (Nat.le_zero.mp hl)
      subst this
      simp [rollingLoop, rollingWindows, sepJoin]
    | succ n ih =>
      intro l hl
      match l with
      | [] => simp [rollingLoop, rollingWindows, sepJoin]
      | s :: ss =>
        match b with
        | 0 => simp [rollingLoop, rollingWindows, sepJoin]
        | b + 1 =>
          have e1 : rollingLoop conn t img (b + 1) (s :: ss)
              = ((s :: ss.take b).map (serverUpdateTrace conn t img)).flatten
                ++ (if (ss.drop b).isEmpty then [] else [Cmd.sleep 30])
                ++ rollingLoop conn t img (b + 1) (ss.drop b) := by
            simp only [rollingLoop]
          have e2 : rollingWindows (b + 1) (s :: ss)
              = (s :: ss.take b) :: rollingWindows (b + 1) (ss.drop b) := by
            simp only [rollingWindows]
          have hlen : (ss.drop b).length ≤ n := by
            simp only [List.length_drop]
            simp only [List.length_cons] at hl
            omega
          rw [e1, e2, ih (ss.drop b) hlen]
          cases hrest : ss.drop b with
          | nil => simp [rollingWindows, sepJoin]
          | cons r rs =>
            have e3 : rollingWindows (b + 1) (r :: rs)
                = (r :: rs.take b) :: rollingWindows (b + 1) (rs.drop b) := by
              simp only [rollingWindows]
            rw [e3]
            simp [sepJoin]
  exact H l.length l (le_refl _)

/-- C5: the windowed loop of `rolling_update` inserts the 30-second delay
exactly between consecutive windows and never after the last (the general
`sepJoin` equation), and over five matching servers with `batch_size = 2`
it processes exactly three windows of sizes 2, 2, 1 in order, sleeping
after windows 1 and 2 only. -/
theorem rolling_update_windows_delays :
    (∀ (conn : Conn) (t : Nat) (img : String) (b : Nat) (l : List Server),
        rollingLoop conn t img b l
          = sepJoin [Cmd.sleep 30]
              ((rollingWindows b l).map
                (fun w => (w.map (serverUpdateTrace conn t img)).flatten)))
    ∧ connRU5.servers.filter (fun s => startswith s.name "web") = fleet5
    ∧ rollingWindows 2 fleet5
        = [[webServer 1, webServer 2], [webServer 3, webServer 4], [webServer 5]]
    ∧ (rollingWindows 2 fleet5).map List.length = [2, 2, 1]
    ∧ rolling_update connRU5 0 "web" "ubuntu-20.04" 2
        = [Cmd.createImage "web-1" "web-1-pre-update-0",
           Cmd.deleteServer "web-1",
           Cmd.waitForDelete "web-1",
           Cmd.createImage "web-2" "web-2-pre-update-0",
           Cmd.deleteServer "web-2",
           Cmd.waitForDelete "web-2",
           Cmd.sleep 30,
           Cmd.createImage "web-3" "web-3-pre-update-0",
           Cmd.deleteServer "web-3",
           Cmd.waitForDelete "web-3",
           Cmd.createImage "web-4" "web-4-pre-update-0",
           Cmd.deleteServer "web-4",
           Cmd.waitForDelete "web-4",
           Cmd.sleep 30,
           Cmd.createImage "web-5" "web-5-pre-update-0",
           Cmd.deleteServer "web-5",
           Cmd.waitForDelete "web-5"] := by
  have hwin : rollingWindows 2 fleet5
      = [[webServer 1, webServer 2], [webServer 3, webServer 4], [webServer 5]] := by
    norm_num [rollingWindows, fleet5]
  have hfil : connRU5.servers.filter (fun s => startswith s.name "web") = fleet5 := by
    decide
  refine ⟨fun conn t img b l => rollingLoop_eq_sepJoin conn t img b l, hfil, hwin, ?_, ?_⟩
  · rw [hwin]
    rfl
  · unfold rolling_update
    rw [hfil]
    have hne : fleet5.isEmpty = false := by decide
    simp only [hne, Bool.false_eq_true, if_false]
    rw [rollingLoop_eq_sepJoin, hwin]
    simp only [List.map_cons, List.map_nil, sepJoin]
    decide

theorem serverUpdateTrace_no_createServer (conn : Conn) (t : Nat) (img : String)
    (server : Server) (req : CreateReq) :
    Cmd.createServer req ∉ serverUpdateTrace conn t img server := by
  have hk : kwargsAccepted launch_instance_params rolling_launch_call_kwargs = false := by
    decide
  unfold serverUpdateTrace
  cases h1 : conn.create_server_image server (server.name ++ "-pre-update-" ++ toString t) with
  | error e => simp [h1]
  | ok i =>
    cases h2 : conn.delete_server server with
    | error e => simp [h1, h2]
    | ok u =>
      cases h3 : conn.wait_for_delete server with
      | error e => simp [h1, h2, h3]
      | ok u2 => simp [h1, h2, h3, hk]

theorem windowTrace_no_createServer (conn : Conn) (t : Nat) (img : String)
    (w : List Server) (req : CreateReq) :
    Cmd.createServer req ∉ (w.map (serverUpdateTrace conn t img)).flatten := by
  intro h
  rw [List.mem_flatten] at h
  obtain ⟨tr, htr, hreq⟩ := h
  rw [List.mem_map] at htr
  obtain ⟨srv, _, rfl⟩ := htr
  exact serverUpdateTrace_no_createServer conn t img srv req hreq

theorem sepJoin_no_createServer (ws : List (List Cmd))
    (h : ∀ w ∈ ws, ∀ req : CreateReq, Cmd.createServer req ∉ w) (req : CreateReq) :
    Cmd.createServer req ∉ sepJoin [Cmd.sleep 30] ws := by
  induction ws with
  | nil => simp [sepJoin]
  | cons w ws ih =>
    cases ws with
    | nil => simpa [sepJoin] using h w (by simp) req
    | cons w2 ws2 =>
      simp only [sepJoin, List.mem_append]
      push_neg
      refine ⟨⟨h w (by simp) req, by simp⟩, ?_⟩
      exact ih (fun w' hw' => h w' (List.mem_cons_of_mem w hw')) 

theorem rolling_update_no_createServer (conn : Conn) (t : Nat)
    ( server_prefix new_image : String) (b : Nat) (req : CreateReq) :
    Cmd.createServer req ∉ rolling_update conn t server_prefix new_image b := by
  unfold rolling_update
  by_cases h : (conn.servers.filter (fun s => startswith s.name server_prefix)).isEmpty
  · simp [h]
  · simp only [h, Bool.false_eq_true, if_false]
    rw [rollingLoop_eq_sepJoin]
    refine sepJoin_no_createServer _ ?_ req
    intro w hw req'
    rw [List.mem_map] at hw
    obtain ⟨win, _, rfl⟩ := hw
    exact windowTrace_no_createServer conn t new_image win req'

/-- C6 (code bug): `rolling_update` snapshots and deletes each matched
server but never creates the replacement: the call
`self.launch_instance(..., networks=networks)` uses the keyword
`networks`, which is not a parameter of `launch_instance`, so it raises
`TypeError` and the per-server `except` swallows it.  Concretely, with a
single matching healthy server the whole trace is snapshot, delete, wait;
in general no trace of `rolling_update` ever contains a `createServer`
command. -/
theorem rolling_update_creates_no_replacement :
    kwargsAccepted launch_instance_params rolling_launch_call_kwargs = false
    ∧ rolling_update connRU1 0 "web" "ubuntu-20.04" 2
        = [Cmd.createImage "web-1" "web-1-pre-update-0",
           Cmd.deleteServer "web-1", Cmd.waitForDelete "web-1"]
    ∧ ∀ (conn : Conn) (t : Nat) ( server_prefix new_image : String) (b : Nat),
        (rolling_update conn t server_prefix new_image b).all
          (fun c => ! c.isCreateServer) = true := by
  refine ⟨by decide, ?_, ?_⟩
  · have hfil : connRU1.servers.filter (fun s => startswith s.name "web")
        = [webServer 1] := by decide
    unfold rolling_update
    rw [hfil]
    have hne : ([webServer 1] : List Server).isEmpty = false := by decide
    simp only [hne, Bool.false_eq_true, if_false]
    rw [rollingLoop_eq_sepJoin]
    have hwin : rollingWindows 2 [webServer 1] = [[webServer 1]] := by
      norm_num [rollingWindows]
    rw [hwin]
    simp only [List.map_cons, List.map_nil, sepJoin]
    decide
  · intro conn t server_prefix new_image b
    rw [List.all_eq_true]
    intro c hc
    cases c <;> simp only [Cmd.isCreateServer, Bool.not_false]
    case createServer req =>
      exact absurd hc (rolling_update_no_createServer conn t server_prefix new_image b req)

theorem snapshotFutures_skips_unresolved (conn : Conn) (t : Nat) (n : String)
    (h : conn.find_server n = .ok none) (pre post : List String) :
    snapshotFutures conn t (pre ++ n :: post) = snapshotFutures conn t (pre ++ post) := by
  induction pre with
  | nil => simp [snapshotFutures, h]
  | cons a pre ih =>
    simp only [List.cons_append, snapshotFutures]
    cases ha : conn.find_server a with
    | error e => rfl
    | ok s? => cases s? <;> simp [ih]

/-- C7: a name that does not resolve to a live server contributes nothing
to `batch_snapshot_instances`: the call returns exactly what it returns
without that name — no output entry and no failure record anywhere. -/
theorem batch_snapshot_unresolved_absent (conn : Conn) (t : Nat) (n : String)
    (pre post : List String) (h : conn.find_server n = .ok none) :
    batch_snapshot_instances conn t (pre ++ n :: post)
      = batch_snapshot_instances conn t (pre ++ post) := by
  unfold batch_snapshot_instances
  rw [snapshotFutures_skips_unresolved conn t n h pre post]

theorem batch_snapshot_unresolved_absent_witness :
    connSnap.find_server "gone" = .ok none
    ∧ batch_snapshot_instances connSnap 0 (["a"] ++ "gone" :: ["b"])
        = batch_snapshot_instances connSnap 0 (["a"] ++ ["b"]) :=
  ⟨by decide, batch_snapshot_unresolved_absent connSnap 0 "gone" ["a"] ["b"] (by decide)⟩

/-- C10: when no currently known server's name starts with the prefix,
`rolling_update` returns right away (only a warning is logged) and issues
no backend command at all: its trace is empty. -/
theorem rolling_update_no_match_is_noop (conn : Conn) (t : Nat)
    ( server_prefix new_image : String) (b : Nat)
    (h : conn.servers.filter (fun s => startswith s.name server_prefix) = []) :
    rolling_update conn t server_prefix new_image b = [] := by
  unfold rolling_update
  simp [h]

theorem rolling_update_no_match_is_noop_witness :
    connRU1.servers.filter (fun s => startswith s.name "db-") = []
    ∧ rolling_update connRU1 0 "db-" "ubuntu-20.04" 2 = [] :=
  ⟨by decide, rolling_update_no_match_is_noop connRU1 0 "db-" "ubuntu-20.04" 2 (by decide)⟩

/-- C8 counterexample: `launch_instance` is asked to look up the security
group `sg-missing`, the lookup misses, and the call still succeeds (the
group is silently skipped) instead of raising an error. -/
theorem launch_missing_secgroup_does_not_raise :
    argsC8.security_group_name = some "sg-missing"
    ∧ connC8.find_security_group "sg-missing" = none
    ∧ (launch_instance connC8 argsC8).1
        = .ok { name := "n1", status := "ACTIVE",
                addresses := [("net0", ["10.0.0.9"])],
                flavorOriginalName := "m1.small", networks := [] } :=
  ⟨rfl, rfl, by decide⟩

/-- C8 amended: a missing image or flavor makes `launch_instance` raise
immediately and propagate; a missing server or missing external network
makes `assign_floating_ip` raise; a missing server or volume makes
`attach_volume` raise; but a network or security-group name that does not
resolve inside `launch_instance` is silently skipped, not raised (see the
counterexample). -/
theorem single_op_not_found_raises (c1 c2 c3 c4 c5 : Conn) (a1 a2 : LaunchArgs)
    (img : Image) (sn sn4 vn vn2 : String) (s4 : Server)
    (h1 : c1.find_image a1.image_name = none)
    (h2i : c2.find_image a2.image_name = some img)
    (h2f : c2.find_flavor a2.flavor_name = none)
    (h3 : c3.find_server sn = .ok none)
    (h4s : c4.find_server sn4 = .ok (some s4))
    (h4v : c4.find_volume vn = none)
    (h5s : c5.find_server sn4 = .ok (some s4))
    (h5n : c5.networks.find? (fun net => net.is_router_external) = none) :
    (launch_instance c1 a1).1 = .error ("Image " ++ a1.image_name ++ " not found")
    ∧ (launch_instance c2 a2).1 = .error ("Flavor " ++ a2.flavor_name ++ " not found")
    ∧ (assign_floating_ip c3 sn).1 = .error ("Server " ++ sn ++ " not found")
    ∧ (assign_floating_ip c5 sn4).1 = .error "No external network found"
    ∧ (attach_volume c4 sn4 vn).1 = .error "Server or volume not found"
    ∧ (attach_volume c3 sn vn2).1 = .error "Server or volume not found" := by
  refine ⟨?_, ?_, ?_, ?_, ?_, ?_⟩
  · simp [launch_instance, h1]
  · simp [launch_instance, h2i, h2f]
  · simp [assign_floating_ip, h3]
  · simp [assign_floating_ip, h5s, h5n]
  · simp [attach_volume, h4s, h4v]
  · simp [attach_volume, h3]

theorem single_op_not_found_raises_witness :
    connBase.find_image "cirros-0.5.2-x86_64-disk" = none
    ∧ connImgOnly.find_image "cirros-0.5.2-x86_64-disk" = some imageCirros
    ∧ connImgOnly.find_flavor "m1.small" = none
    ∧ connBase.find_server "s-gone" = .ok none
    ∧ connC8.find_server "s-ok" = .ok (some srvActive)
    ∧ connC8.find_volume "vol-missing" = none
    ∧ connC8.networks.find? (fun net => net.is_router_external) = none
    ∧ ((launch_instance connBase { name := "n1" }).1
          = .error ("Image " ++ "cirros-0.5.2-x86_64-disk" ++ " not found")
      ∧ (launch_instance connImgOnly { name := "n2" }).1
          = .error ("Flavor " ++ "m1.small" ++ " not found")
      ∧ (assign_floating_ip connBase "s-gone").1
          = .error ("Server " ++ "s-gone" ++ " not found")
      ∧ (assign_floating_ip connC8 "s-ok").1 = .error "No external network found"
      ∧ (attach_volume connC8 "s-ok" "vol-missing").1 = .error "Server or volume not found"
      ∧ (attach_volume connBase "s-gone" "vol-x").1 = .error "Server or volume not found") :=
  ⟨by decide, by decide, by decide, by decide, by decide, by decide, by decide,
   single_op_not_found_raises connBase connImgOnly connBase connC8 connC8
     { name := "n1" } { name := "n2" } imageCirros "s-gone" "s-ok" "vol-missing" "vol-x"
     srvActive
     (by decide) (by decide) (by decide) (by decide) (by decide) (by decide)
     (by decide) (by decide)⟩

theorem mem_cleanup_deleteIp (conn : Conn) (p addr : String) :
    Cmd.deleteIp addr ∈ cleanup_resources conn p ↔
      ∃ fip ∈ conn.ips, pyFalsy fip.fixed_ip_address ∧ fip.floating_ip_address = addr := by
  simp [cleanup_resources, List.mem_append, List.mem_map, List.mem_filter,
    List.mem_flatten, and_assoc]
  rintro x r hr hfalsy hstart rfl hmem
  simp at hmem

theorem mem_cleanup_deleteServer (conn : Conn) (p srvn : String) :
    Cmd.deleteServer srvn ∈ cleanup_resources conn p ↔
      ∃ s ∈ conn.servers, startswith s.name p ∧ s.name = srvn := by
  simp [cleanup_resources, List.mem_append, List.mem_map, List.mem_filter,
    List.mem_flatten, and_assoc]
  rintro x r hr hfalsy hstart rfl hmem
  simp at hmem

theorem mem_cleanup_deleteVolume (conn : Conn) (p vid : String) :
    Cmd.deleteVolume vid ∈ cleanup_resources conn p ↔
      ∃ v ∈ conn.volumes, (!pyFalsy v.name) ∧ startswith (v.name.getD "") p ∧ v.id = vid := by
  simp [cleanup_resources, List.mem_append, List.mem_map, List.mem_filter,
    List.mem_flatten, and_assoc]
  rintro x r hr hfalsy hstart rfl hmem
  simp at hmem

theorem mem_cleanup_deleteRouter (conn : Conn) (p rid : String) :
    Cmd.deleteRouter rid ∈ cleanup_resources conn p ↔
      ∃ r ∈ conn.routers, (!pyFalsy r.name) ∧ startswith (r.name.getD "") p ∧ r.id = rid := by
  simp [cleanup_resources, List.mem_append, List.mem_map, List.mem_filter,
    List.mem_flatten, and_assoc]
  constructor
  · rintro ⟨l, ⟨r, hr, hf, hs, rfl⟩, hmem⟩
    simp at hmem
    exact ⟨r, hr, hf, hs, hmem.symm⟩
  · rintro ⟨r, hr, hf, hs, rfl⟩
    exact ⟨_, ⟨r, hr, hf, hs, rfl⟩, by simp⟩

theorem mem_cleanup_deleteNetwork (conn : Conn) (p nid : String) :
    Cmd.deleteNetwork nid ∈ cleanup_resources conn p ↔
      ∃ nw ∈ conn.networks, nw.name ≠ "" ∧ startswith nw.name p ∧ nw.id = nid := by
  simp [cleanup_resources, List.mem_append, List.mem_map, List.mem_filter,
    List.mem_flatten, and_assoc]
  rintro x r hr hfalsy hstart rfl hmem
  simp at hmem

theorem mem_cleanup_deleteSecurityGroup (conn : Conn) (p sgid : String) :
    Cmd.deleteSecurityGroup sgid ∈ cleanup_resources conn p ↔
      ∃ sg ∈ conn.security_groups, sg.name ≠ "" ∧ startswith sg.name p ∧ sg.id = sgid := by
  simp [cleanup_resources, List.mem_append, List.mem_map, List.mem_filter,
    List.mem_flatten, and_assoc]
  rintro x r hr hfalsy hstart rfl hmem
  simp at hmem

/-- C9: `cleanup_resources` deletes every floating IP whose fixed IP
address is unset (falsy), with no dependence on the prefix argument,
while servers, volumes, routers, networks and security groups are
deleted exactly when their name passes the prefix filter. -/
theorem cleanup_floating_ips_unfiltered (conn : Conn)
    (p p' addr srvn vid rid nid sgid : String) :
    (Cmd.deleteIp addr ∈ cleanup_resources conn p ↔
      ∃ fip ∈ conn.ips, pyFalsy fip.fixed_ip_address ∧ fip.floating_ip_address = addr)
    ∧ (Cmd.deleteIp addr ∈ cleanup_resources conn p ↔
      Cmd.deleteIp addr ∈ cleanup_resources conn p')
    ∧ (Cmd.deleteServer srvn ∈ cleanup_resources conn p ↔
      ∃ s ∈ conn.servers, startswith s.name p ∧ s.name = srvn)
    ∧ (Cmd.deleteVolume vid ∈ cleanup_resources conn p ↔
      ∃ v ∈ conn.volumes, (!pyFalsy v.name) ∧ startswith (v.name.getD "") p ∧ v.id = vid)
    ∧ (Cmd.deleteRouter rid ∈ cleanup_resources conn p ↔
      ∃ r ∈ conn.routers, (!pyFalsy r.name) ∧ startswith (r.name.getD "") p ∧ r.id = rid)
    ∧ (Cmd.deleteNetwork nid ∈ cleanup_resources conn p ↔
      ∃ nw ∈ conn.networks, nw.name ≠ "" ∧ startswith nw.name p ∧ nw.id = nid)
    ∧ (Cmd.deleteSecurityGroup sgid ∈ cleanup_resources conn p ↔
      ∃ sg ∈ conn.security_groups, sg.name ≠ "" ∧ startswith sg.name p ∧ sg.id = sgid) :=
  ⟨mem_cleanup_deleteIp conn p addr,
   (mem_cleanup_deleteIp conn p addr).trans (mem_cleanup_deleteIp conn p' addr).symm,
   mem_cleanup_deleteServer conn p srvn,
   mem_cleanup_deleteVolume conn p vid,
   mem_cleanup_deleteRouter conn p rid,
   mem_cleanup_deleteNetwork conn p nid,
   mem_cleanup_deleteSecurityGroup conn p sgid⟩

theorem cleanup_floating_ips_unfiltered_witness :
    (Cmd.deleteIp "1.2.3.4" ∈ cleanup_resources connClean "auto-" ↔
      ∃ fip ∈ connClean.ips, pyFalsy fip.fixed_ip_address ∧ fip.floating_ip_address = "1.2.3.4")
    ∧ (Cmd.deleteIp "1.2.3.4" ∈ cleanup_resources connClean "auto-" ↔
      Cmd.deleteIp "1.2.3.4" ∈ cleanup_resources connClean "zzz-")
    ∧ (Cmd.deleteServer "auto-s1" ∈ cleanup_resources connClean "auto-" ↔
      ∃ s ∈ connClean.servers, startswith s.name "auto-" ∧ s.name = "auto-s1")
    ∧ (Cmd.deleteVolume "v-1" ∈ cleanup_resources connClean "auto-" ↔
      ∃ v ∈ connClean.volumes, (!pyFalsy v.name) ∧ startswith (v.name.getD "") "auto-" ∧ v.id = "v-1")
    ∧ (Cmd.deleteRouter "r-1" ∈ cleanup_resources connClean "auto-" ↔
      ∃ r ∈ connClean.routers, (!pyFalsy r.name) ∧ startswith (r.name.getD "") "auto-" ∧ r.id = "r-1")
    ∧ (Cmd.deleteNetwork "n-1" ∈ cleanup_resources connClean "auto-" ↔
      ∃ nw ∈ connClean.networks, nw.name ≠ "" ∧ startswith nw.name "auto-" ∧ nw.id = "n-1")
    ∧ (Cmd.deleteSecurityGroup "sg-1" ∈ cleanup_resources connClean "auto-" ↔
      ∃ sg ∈ connClean.security_groups, sg.name ≠ "" ∧ startswith sg.name "auto-" ∧ sg.id = "sg-1") :=
  cleanup_floating_ips_unfiltered connClean "auto-" "zzz-" "1.2.3.4" "auto-s1" "v-1" "r-1" "n-1" "sg-1"
